import Mathlib

/-!
Formal model of `custom_components/ics2000/light.py`: the task data model,
the queue operations of `KlikAanKlikUitThread` (`has_running_threads`,
`add_task`, the `run` loop, `stop`), the `repeat` helper, and the entity
methods `turn_on` / `turn_off` of `KlikAanKlikUitDevice`.

Modelling conventions:
* Python dict-shaped tasks `{"device_id": ..., "action": ..., "params": ...}`
  become the structure `Task`; the `params` dict becomes a structure of
  `Option` fields (an absent key is `none`, the empty dict has all fields
  `none`).
* `queue.Queue` is a FIFO list: `put` appends at the tail, `get` takes the
  head.  Each of `has_running_threads`, `put` and `get` holds the queue's
  internal mutex in the source, so each is modelled as one atomic operation
  on the instantaneous queue contents.
* Side effects (logging, `print`, `time.sleep`, invoking a hub callable) are
  modelled as event traces; durations are natural numbers of seconds, and
  the half-second sleep of `process_task` is its own trace constructor so no
  floating point arithmetic is needed.
* A Python function that can raise is modelled with an explicit exception
  outcome (`Except` / an `Option` exception field).
-/

namespace ICS2000

/-- The `KlikAanKlikUitAction` enum of the source (`'on'`, `'off'`, `'dim'`). -/
inductive KlikAanKlikUitAction where
  | turn_on
  | turn_off
  | dim
deriving DecidableEq, Repr

/-- The string value carried by each enum member in the source. -/
def KlikAanKlikUitAction.value : KlikAanKlikUitAction → String
  | .turn_on => "on"
  | .turn_off => "off"
  | .dim => "dim"

/-- The hub collaborator callables that the module stores in task params:
`self._hub.turn_on`, `self._hub.turn_off`, `self._hub.dim`. -/
inductive HubCallable where
  | turnOn
  | turnOff
  | dim
deriving DecidableEq, Repr

/-- The `params` dict of a task as built by `turn_on` / `turn_off`:
keys `tries`, `sleep`, `callable_function`, `entity` and (for Dim) `level`.
An absent key is `none`; the empty dict has every field `none`. -/
structure Params where
  tries : Option Nat := none
  sleep : Option Nat := none
  callable_function : Option HubCallable := none
  entity : Option Nat := none
  level : Option Nat := none
deriving DecidableEq, Repr

/-- A task dict `{"device_id": ..., "action": ..., "params": ...}` as built
by `KlikAanKlikUitThread.add_task`. -/
structure Task where
  device_id : Nat
  action : KlikAanKlikUitAction
  params : Params
deriving DecidableEq, Repr

/-- `KlikAanKlikUitThread.has_running_threads`: under `task_queue.mutex`,
scan the pending queue for any task whose `device_id` equals the argument. -/
def has_running_threads (q : List Task) (device_id : Nat) : Bool :=
  q.any (fun t => t.device_id == device_id)

/-- `KlikAanKlikUitThread.add_task`: if no pending task exists for the
device, build the task dict (with `params or \x7b\x7d` defaulting `None` to the
empty dict) and `put` it at the tail of the queue; otherwise do nothing. -/
def add_task (q : List Task) (device_id : Nat) (action : KlikAanKlikUitAction)
    (params : Option Params) : List Task :=
  if has_running_threads q device_id then q
  else q ++ [{ device_id := device_id, action := action, params := params.getD {} }]

/-- Number of tasks for a given device currently in the queue. -/
def countFor (q : List Task) (device_id : Nat) : Nat :=
  q.countP (fun t => t.device_id == device_id)

/-- Per-device uniqueness of queued tasks: at most one task per `device_id`. -/
def queueInv (q : List Task) : Prop :=
  ∀ d : Nat, countFor q d ≤ 1

/-- Combined state of the worker system: the pending queue plus the task the
worker loop is currently processing, if any (the `run` loop removes a task
from the queue with `get` before handing it to `process_task`). -/
structure SysState where
  queue : List Task
  executing : Option Task
deriving DecidableEq, Repr

/-- The dequeue performed by the worker loop: `task = self.task_queue.get(...)`
moves the head task from the queue into the execution slot. -/
def workerDequeue (s : SysState) : SysState :=
  match s.queue with
  | [] => s
  | t :: rest => { queue := rest, executing := some t }

/-- A submission through `add_task`, leaving the execution slot untouched. -/
def submitTask (s : SysState) (device_id : Nat) (action : KlikAanKlikUitAction)
    (params : Option Params) : SysState :=
  { s with queue := add_task s.queue device_id action params }

/-- Number of tasks for a device resident in the queue or currently
executing. -/
def residentFor (s : SysState) (device_id : Nat) : Nat :=
  countFor s.queue device_id +
    (match s.executing with
     | some t => if t.device_id == device_id then 1 else 0
     | none => 0)

/-- Events emitted by the `repeat` function: invoking the callable on loop
index `i`, and `time.sleep` with a duration in seconds. -/
inductive REvent where
  | call (i : Nat)
  | sleep (d : Nat)
deriving DecidableEq, Repr

/-- The body of `repeat(tries, sleep, callable_function, **kwargs)`:
`for i in range(0, tries)` invokes the callable, then
`time.sleep(sleep if i != tries - 1 else 0)`.  The action is indexed by the
loop counter and may raise (`Except.error`); an exception aborts the loop at
that call (no further calls, no sleep after the raising call) and is the
second component of the result.  `rem` counts the remaining iterations, so
the current index is `i` and `rem = 0` after the last iteration; the source
condition `i != tries - 1` is exactly `rem != 0` here. -/
def repeatExc {E : Type} (action : Nat → Except E Unit) (s : Nat) :
    Nat → Nat → List REvent × Option E
  | _, 0 => ([], none)
  | i, rem + 1 =>
    match action i with
    | .error e => ([REvent.call i], some e)
    | .ok _ =>
      let r := repeatExc action s (i + 1) rem
      (REvent.call i :: REvent.sleep (if rem = 0 then 0 else s) :: r.1, r.2)

/-- An action that never raises, for runs of `repeat` where the callable
always returns normally. -/
def pureOk : Nat → Except Unit Unit := fun _ => Except.ok ()

/-- The event trace of `repeat(tries, sleep, f)` when `f` never raises. -/
def repeatTrace (tries sleep : Nat) : List REvent :=
  (repeatExc pureOk sleep 0 tries).1

/-- Number of callable invocations in a `repeat` trace. -/
def callCount (tr : List REvent) : Nat :=
  tr.countP (fun e => match e with | .call _ => true | .sleep _ => false)

/-- The `time.sleep` durations of a `repeat` trace, in trace order. -/
def sleepDurations (tr : List REvent) : List Nat :=
  tr.filterMap (fun e => match e with | .call _ => none | .sleep d => some d)

/-- Effects emitted by `KlikAanKlikUitThread.process_task`: the `print` of
the task, the `time.sleep(0.5)` simulation delay, and (never emitted by the
source, see `process_task`) an invocation of a hub callable. -/
inductive PEffect where
  | print (device_id : Nat) (action : KlikAanKlikUitAction)
  | sleepHalfSecond
  | invoke (c : HubCallable) (entity : Nat) (level : Option Nat)
deriving DecidableEq, Repr

/-- `KlikAanKlikUitThread.process_task` as written in the source: it reads
`device_id`, `action` and `params` from the task dict, prints a message and
sleeps half a second ("Simulate action processing").  It never calls
`repeat` and never invokes `params["callable_function"]`. -/
def process_task (task : Task) : List PEffect :=
  [PEffect.print task.device_id task.action, PEffect.sleepHalfSecond]

/-- Number of hub-callable invocations in a `process_task` effect list. -/
def invokeCount (tr : List PEffect) : Nat :=
  tr.countP (fun e => match e with | .invoke _ _ _ => true | _ => false)

/-- Control position of the `run` loop of `KlikAanKlikUitThread`:
`checkStop` is the `while not self.stop_event.is_set()` test, `waiting` is
the blocking `self.task_queue.get(timeout=1)`, `processing t` is the call
`self.process_task(task)`, `done` is normal loop exit, and `crashed e` is
the thread dying on an exception that the `except queue.Empty` clause does
not catch. -/
inductive Phase (E : Type) where
  | checkStop
  | waiting
  | processing (t : Task)
  | done
  | crashed (e : E)
deriving DecidableEq, Repr

/-- State of the `run` loop: its control phase, the stop event flag, the
pending queue, and (specification-only bookkeeping) the list of tasks
dequeued so far in order. -/
structure RunState (E : Type) where
  phase : Phase E
  stopSet : Bool
  queue : List Task
  dequeued : List Task
deriving DecidableEq, Repr

/-- One atomic step of the `run` loop, parametrised by the outcome of
processing a task (`Except.error e` models `process_task` raising `e`).
From `checkStop`, a set stop event exits the loop; otherwise the loop enters
the queue wait.  From `waiting`, an empty queue raises `queue.Empty`, which
the `except` clause catches and the loop continues (back to the stop test);
a nonempty queue yields its head task, which is recorded as dequeued and
processed.  A processing exception is not caught (`except queue.Empty` is
the only handler), so it escapes `run` and the thread is dead: `crashed` is
absorbing, and nothing is logged.  `done` is also absorbing. -/
def runStep {E : Type} (process : Task → Except E Unit) (s : RunState E) :
    RunState E :=
  match s.phase with
  | .checkStop => if s.stopSet then { s with phase := .done } else { s with phase := .waiting }
  | .waiting =>
    match s.queue with
    | [] => { s with phase := .checkStop }
    | t :: rest =>
      { s with phase := .processing t, queue := rest, dequeued := s.dequeued ++ [t] }
  | .processing t =>
    match process t with
    | .ok _ => { s with phase := .checkStop }
    | .error e => { s with phase := .crashed e }
  | .done => s
  | .crashed _ => s

/-- Iterated `run`-loop steps. -/
def runSteps {E : Type} (process : Task → Except E Unit) : Nat → RunState E → RunState E
  | 0, s => s
  | n + 1, s => runSteps process n (runStep process s)

/-- The loop has terminated: either a normal exit (`stop` observed) or the
thread died on an uncaught exception. -/
def Phase.isTerminal {E : Type} : Phase E → Bool
  | .done => true
  | .crashed _ => true
  | _ => false

/-- The `_attr_color_mode` assigned by `KlikAanKlikUitDevice.__init__`:
`BRIGHTNESS` for a `Dimmer`, `ONOFF` otherwise. -/
inductive ColorMode where
  | brightness
  | onoff
deriving DecidableEq, Repr

/-- A `KlikAanKlikUitThread` object as seen from the entity: whether
`is_alive()` returns true and its pending task queue. -/
structure ThreadState where
  alive : Bool
  queue : List Task
deriving DecidableEq, Repr

/-- The fields of a `KlikAanKlikUitDevice` instance (leading underscores of
the Python attribute names dropped): `worker_thread` is `none` when the
attribute was never assigned, so `hasattr(self, 'worker_thread')` is false.
`state` is `_state` and `brightness` is `_brightness`, both `None` after
`__init__`. -/
structure DeviceState where
  tries : Nat
  sleep : Nat
  name : String
  id : Nat
  state : Option Bool
  brightness : Option Nat
  attr_color_mode : ColorMode
  worker_thread : Option ThreadState
deriving DecidableEq, Repr

/-- `KlikAanKlikUitDevice.__init__(device, tries, sleep)`: stores the
configuration and device identity, sets `_state` and `_brightness` to
`None`, picks the color mode from whether the device is a `Dimmer`, and
never assigns a `worker_thread` attribute (nor does any other code path in
the module), so `worker_thread` is `none`. -/
def deviceInit (deviceName : String) (deviceId : Nat) (isDimmer : Bool)
    (tries sleep : Nat) : DeviceState :=
  { tries := tries
    sleep := sleep
    name := deviceName
    id := deviceId
    state := none
    brightness := none
    attr_color_mode := if isDimmer then ColorMode.brightness else ColorMode.onoff
    worker_thread := none }

/-- Log records emitted through `_LOGGER` (the dynamic thread-name part of
the f-strings is elided). -/
inductive LogEvent where
  | info (msg : String)
  | error (msg : String)
deriving DecidableEq, Repr

/-- Python exceptions that the modelled entity methods can raise. -/
inductive PyExc where
  | typeError
deriving DecidableEq, Repr

/-- The caller-visible completion of a Python method: the entity methods are
declared `-> None`, so a normal completion returns `None` on every path;
the only other caller-visible channel is a raised exception. -/
inductive PyOutcome where
  | returnsNone
  | raises (e : PyExc)
deriving DecidableEq, Repr

/-- Result of a `turn_on` / `turn_off` call: the device object after the
call (including its `worker_thread` reference and that thread's queue), the
log records emitted, and the caller-visible outcome. -/
structure TurnResult where
  device : DeviceState
  logs : List LogEvent
  outcome : PyOutcome
deriving DecidableEq, Repr

/-- The message of the `_LOGGER.error` in `turn_on` / `turn_off` when the
worker thread is missing or dead. -/
def workerNotRunningMsg : String :=
  "Worker thread is not running. Please start the KlikAanKlikUitThread."

/-- `hasattr(self, 'worker_thread')` is false, or the thread is not alive:
the condition of the early-return branch of `turn_on` / `turn_off`. -/
def workerNotRunning (d : DeviceState) : Bool :=
  match d.worker_thread with
  | none => true
  | some wt => !wt.alive

/-- `math.ceil(brightness / 17)` for a nonnegative integer brightness, the
level computation of the Dim branch of `turn_on` (for naturals,
`ceil(b / 17) = (b + 17 - 1) / 17` with integer division). -/
def dim_level (brightness : Nat) : Nat :=
  (brightness + 17 - 1) / 17

/-- `kwargs.get(ATTR_BRIGHTNESS, 255)`: the supplied brightness, or 255 when
the caller passed none. -/
def brightness_or_default (kw : Option Nat) : Nat :=
  kw.getD 255

/-- `KlikAanKlikUitDevice.turn_on(**kwargs)` as written in the source.
After the entry `_LOGGER.info`, the method returns early (logging an error)
when the `worker_thread` attribute is absent or the thread is dead.
Otherwise it evaluates `KlikAanKlikUitThread.has_running_threads(self._id)`:
an unbound call of a two-parameter instance method with a single positional
argument, which raises `TypeError` (missing argument `device_id`); the
exception is not caught, so the rest of the method (brightness assignment,
`add_task`, `_state = True`) is unreachable. -/
def turn_on (self : DeviceState) (_kwargs_brightness : Option Nat) : TurnResult :=
  let logs0 := [LogEvent.info "Function turn_on called"]
  match self.worker_thread with
  | none =>
    { device := self
      logs := logs0 ++ [LogEvent.error workerNotRunningMsg]
      outcome := PyOutcome.returnsNone }
  | some wt =>
    if wt.alive then
      { device := self, logs := logs0, outcome := PyOutcome.raises PyExc.typeError }
    else
      { device := self
        logs := logs0 ++ [LogEvent.error workerNotRunningMsg]
        outcome := PyOutcome.returnsNone }

/-- `KlikAanKlikUitDevice.turn_off(**kwargs)` as written in the source, with
the same structure as `turn_on`: early return with an error log when the
worker is missing or dead, and otherwise the same unbound
`KlikAanKlikUitThread.has_running_threads(self._id)` call raising
`TypeError` before `add_task` or `_state = False` can run. -/
def turn_off (self : DeviceState) : TurnResult :=
  let logs0 := [LogEvent.info "Function turn_off called"]
  match self.worker_thread with
  | none =>
    { device := self
      logs := logs0 ++ [LogEvent.error workerNotRunningMsg]
      outcome := PyOutcome.returnsNone }
  | some wt =>
    if wt.alive then
      { device := self, logs := logs0, outcome := PyOutcome.raises PyExc.typeError }
    else
      { device := self
        logs := logs0 ++ [LogEvent.error workerNotRunningMsg]
        outcome := PyOutcome.returnsNone }

/-- The call carries an unavailability indication to the caller: since the
method returns `None` on every normal path, only a raised exception could
distinguish the worker-down case for the caller. -/
def reportsToCaller (r : TurnResult) : Bool :=
  match r.outcome with
  | .returnsNone => false
  | .raises _ => true

/-- Example params of a TurnOn task for device 7 with `tries=3`, `sleep=1`. -/
def exParamsOn : Params :=
  { tries := some 3, sleep := some 1, callable_function := some HubCallable.turnOn,
    entity := some 7 }

/-- Example params of a TurnOff task for device 7 with `tries=3`, `sleep=1`. -/
def exParamsOff : Params :=
  { tries := some 3, sleep := some 1, callable_function := some HubCallable.turnOff,
    entity := some 7 }

/-- Example TurnOn task for device 7. -/
def exTaskOn : Task :=
  { device_id := 7, action := KlikAanKlikUitAction.turn_on, params := exParamsOn }

/-- A task (device 1) whose processing raises in the example processor. -/
def exBadTask : Task :=
  { device_id := 1, action := KlikAanKlikUitAction.turn_on, params := {} }

/-- A task (device 2) whose processing succeeds in the example processor. -/
def exGoodTask : Task :=
  { device_id := 2, action := KlikAanKlikUitAction.turn_off, params := {} }

/-- Example processing outcome: raises exception `0` on device 1, returns
normally otherwise. -/
def procBad : Task → Except Nat Unit :=
  fun t => if t.device_id = 1 then Except.error 0 else Except.ok ()

/-- Example processing outcome that always returns normally. -/
def pureOkTask : Task → Except Nat Unit :=
  fun _ => Except.ok ()

/-- Example `repeat` action that raises exception `42` on its second
invocation (loop index 1) and returns normally otherwise. -/
def exThrowAction : Nat → Except Nat Unit :=
  fun j => if j = 1 then Except.error 42 else Except.ok ()

/-- A `run`-loop state at the stop test, stop not yet requested, with a bad
task followed by a good task pending. -/
def exRunStart : RunState Nat :=
  { phase := Phase.checkStop, stopSet := false, queue := [exBadTask, exGoodTask],
    dequeued := [] }

/-- A `run`-loop state inside the queue wait with the stop event already
set and one task pending. -/
def exStopState : RunState Nat :=
  { phase := Phase.waiting, stopSet := true, queue := [exTaskOn], dequeued := [] }

/-- A device as `__init__` leaves it: no `worker_thread` attribute. -/
def exDevDown : DeviceState :=
  deviceInit "lamp" 7 false 3 1

theorem countFor_eq_zero_of_not_running (q : List Task) (d : Nat)
    (h : has_running_threads q d = false) : countFor q d = 0 := by
  rw [countFor, List.countP_eq_zero]
  intro t ht hpt
  have htrue : has_running_threads q d = true := by
    rw [has_running_threads, List.any_eq_true]
    exact ⟨t, ht, hpt⟩
  rw [h] at htrue
  exact Bool.false_ne_true htrue

theorem countFor_append_single (q : List Task) (t : Task) (d : Nat) :
    countFor (q ++ [t]) d = countFor q d + (if t.device_id == d then 1 else 0) := by
  simp [countFor, List.countP_append, List.countP_cons]

/-- C1: the claim fails as stated.  Starting from a queue holding a single
task for device 7, the worker loop dequeues it (so it is currently
executing), after which `has_running_threads` — which scans only the queue —
reports device 7 as free, and `add_task` appends a second task for device 7:
two tasks for the device are then resident in the queue or executing at the
same instant. -/
theorem resident_two_for_device_seven :
    residentFor (submitTask (workerDequeue { queue := [exTaskOn], executing := none })
      7 KlikAanKlikUitAction.turn_off (some exParamsOff)) 7 = 2 := by
  decide

/-- C1 (amended): `add_task` appends a task only when `has_running_threads`
for that device is false, and therefore preserves per-device uniqueness of
tasks **in the queue** under sequential submissions; a task currently being
executed by the worker is outside the scan, and the check and the append do
not hold the queue mutex jointly, so the stronger queued-or-executing bound
of the original claim fails (see the counterexample). -/
theorem add_task_preserves_queue_uniqueness (q : List Task) (d : Nat)
    (a : KlikAanKlikUitAction) (p : Option Params) (hq : queueInv q) :
    queueInv (add_task q d a p) := by
  unfold add_task
  split
  · exact hq
  · rename_i h
    intro d'
    rw [countFor_append_single]
    by_cases hd : d == d'
    · have hzero : countFor q d' = 0 := by
        have := countFor_eq_zero_of_not_running q d (by simpa using h)
        rwa [show d = d' from by simpa using hd] at this
      simp [hzero, hd]
    · have h1 : countFor q d' ≤ 1 := hq d'
      have hne : (d == d') = false := by
        simp only [beq_eq_false_iff_ne, ne_eq]
        simpa using hd
      simpa [hne] using h1

/-- C1 witness: adding a task to the empty queue preserves the per-device
uniqueness invariant. -/
theorem add_task_preserves_queue_uniqueness_witness :
    queueInv (add_task [] 7 KlikAanKlikUitAction.turn_on (some exParamsOn)) :=
  add_task_preserves_queue_uniqueness [] 7 KlikAanKlikUitAction.turn_on
    (some exParamsOn) (fun d => by simp [countFor])

theorem repeatExc_ok_step {E : Type} (action : Nat → Except E Unit) (s i m : Nat)
    (h : action i = Except.ok ()) :
    repeatExc action s i (m + 1) =
      (REvent.call i :: REvent.sleep (if m = 0 then 0 else s) ::
          (repeatExc action s (i + 1) m).1,
        (repeatExc action s (i + 1) m).2) := by
  simp [repeatExc, h]

theorem repeatExc_error_step {E : Type} (action : Nat → Except E Unit) (s i m : Nat)
    (e : E) (h : action i = Except.error e) :
    repeatExc action s i (m + 1) = ([REvent.call i], some e) := by
  simp [repeatExc, h]

theorem repeatTrace_aux (s : Nat) :
    ∀ rem i, callCount (repeatExc pureOk s i (rem + 1)).1 = rem + 1 ∧
      sleepDurations (repeatExc pureOk s i (rem + 1)).1 = List.replicate rem s ++ [0] ∧
      ((repeatExc pureOk s i (rem + 1)).1).getLast? = some (REvent.sleep 0) := by
  intro rem
  induction rem with
  | zero =>
    intro i
    rw [repeatExc_ok_step pureOk s i 0 rfl]
    simp [repeatExc, callCount, sleepDurations]
  | succ n ih =>
    intro i
    obtain ⟨hc, hs, hl⟩ := ih (i + 1)
    have hstep := repeatExc_ok_step pureOk s i (n + 1) rfl
    rw [if_neg (Nat.succ_ne_zero n)] at hstep
    refine ⟨?_, ?_, ?_⟩
    · rw [hstep]
      simp only [callCount, List.countP_cons] at hc ⊢
      simp
      omega
    · rw [hstep]
      simp only [sleepDurations, List.filterMap_cons] at hs ⊢
      simp [hs, List.replicate_succ]
    · rw [hstep]
      rcases htail : (repeatExc pureOk s (i + 1) (n + 1)).1 with _ | ⟨h0, t0⟩
      · rw [htail] at hc
        simp [callCount] at hc
      · rw [htail] at hl
        show (REvent.call i :: REvent.sleep s :: h0 :: t0).getLast? = some (REvent.sleep 0)
        rw [List.getLast?_cons_cons, List.getLast?_cons_cons]
        exact hl

/-- C2: for every `tries = n ≥ 1` and every `sleep = s`, a run of `repeat`
whose action never raises invokes the callable exactly `n` times (the trace
model is sequential on the calling execution context by construction), and
its `time.sleep` durations in order are `n - 1` sleeps of `s` between
successive invocations followed by a final duration of `0`: after the last
invocation the source executes `time.sleep(0)`, which does not suspend, so
the worker is never suspended for `s` after the final invocation. -/
theorem repeat_invocations_and_sleeps (n s : Nat) (h : 1 ≤ n) :
    callCount (repeatTrace n s) = n ∧
    sleepDurations (repeatTrace n s) = List.replicate (n - 1) s ++ [0] ∧
    (repeatTrace n s).getLast? = some (REvent.sleep 0) := by
  obtain ⟨m, rfl⟩ : ∃ m, n = m + 1 := ⟨n - 1, by omega⟩
  simpa [repeatTrace] using repeatTrace_aux s m 0

/-- C2 witness: `repeat(tries=3, sleep=2)` invokes the callable 3 times with
two sleeps of 2 seconds in between and a final `time.sleep(0)`. -/
theorem repeat_invocations_and_sleeps_witness :
    callCount (repeatTrace 3 2) = 3 ∧
    sleepDurations (repeatTrace 3 2) = List.replicate 2 2 ++ [0] ∧
    (repeatTrace 3 2).getLast? = some (REvent.sleep 0) :=
  repeat_invocations_and_sleeps 3 2 (by decide)

theorem repeatExc_first_error_aux {E : Type} (action : Nat → Except E Unit)
    (s : Nat) (e : E) :
    ∀ k0 i rem, k0 < rem →
      (∀ j, j < k0 → action (i + j) = Except.ok ()) →
      action (i + k0) = Except.error e →
      callCount (repeatExc action s i rem).1 = k0 + 1 ∧
      (repeatExc action s i rem).2 = some e := by
  intro k0
  induction k0 with
  | zero =>
    intro i rem hlt hok herr
    obtain ⟨rem', rfl⟩ : ∃ r, rem = r + 1 := ⟨rem - 1, by omega⟩
    simp only [Nat.add_zero] at herr
    rw [repeatExc_error_step action s i rem' e herr]
    simp [callCount]
  | succ k ih =>
    intro i rem hlt hok herr
    obtain ⟨rem', rfl⟩ : ∃ r, rem = r + 1 := ⟨rem - 1, by omega⟩
    have hi : action i = Except.ok () := by simpa using hok 0 (Nat.succ_pos k)
    have hok' : ∀ j, j < k → action (i + 1 + j) = Except.ok () := by
      intro j hj
      have h2 := hok (j + 1) (by omega)
      have harith : i + (j + 1) = i + 1 + j := by omega
      rwa [harith] at h2
    have herr' : action (i + 1 + k) = Except.error e := by
      have harith : i + (k + 1) = i + 1 + k := by omega
      rwa [harith] at herr
    obtain ⟨hc, hs⟩ := ih (i + 1) rem' (by omega) hok' herr'
    have hstep := repeatExc_ok_step action s i rem' hi
    refine ⟨?_, ?_⟩
    · rw [hstep]
      simp only [callCount, List.countP_cons] at hc ⊢
      simp
      omega
    · rw [hstep]
      exact hs

/-- C8: `repeat` never suppresses an exception of the action: if the action
first raises at attempt `k` of `n` (attempts `1 .. k-1` return normally,
`1 ≤ k ≤ n`), then exactly `k` invocations are performed — attempts
`k+1 .. n` are skipped — and the exception reaches `repeat`'s caller (the
source has no handler around the loop body). -/
theorem repeat_propagates_first_exception {E : Type} (action : Nat → Except E Unit)
    (s n k : Nat) (e : E) (hk1 : 1 ≤ k) (hkn : k ≤ n)
    (hok : ∀ j, j < k - 1 → action j = Except.ok ())
    (herr : action (k - 1) = Except.error e) :
    callCount (repeatExc action s 0 n).1 = k ∧
    (repeatExc action s 0 n).2 = some e := by
  obtain ⟨hc, hs⟩ := repeatExc_first_error_aux action s e (k - 1) 0 n (by omega)
    (fun j hj => by simpa using hok j hj)
    (by simpa using herr)
  refine ⟨?_, hs⟩
  omega

/-- C8 witness: with an action that raises `42` on its second invocation,
`repeat(tries=3, sleep=1)` performs exactly 2 invocations and propagates the
exception. -/
theorem repeat_propagates_first_exception_witness :
    callCount (repeatExc exThrowAction 1 0 3).1 = 2 ∧
    (repeatExc exThrowAction 1 0 3).2 = some 42 :=
  repeat_propagates_first_exception exThrowAction 1 3 2 42 (by decide) (by decide)
    (fun j hj => by
      have hj0 : j = 0 := by omega
      subst hj0
      rfl)
    (by rfl)

/-- C3: the code is a stub and the claim describes the intended behavior.
On the example dequeued task — device 7, TurnOn, params carrying
`tries = 3`, `sleep = 1` and a hub callable, exactly the shape the module's
own `repeat(tries, sleep, callable_function, **kwargs)` consumes —
`process_task` emits only a `print` and a half-second sleep: it performs
zero invocations of the task's callable instead of the configured 3, and
the `repeat` function of the module is never called. -/
theorem process_task_ignores_repeat_params :
    process_task exTaskOn =
      [PEffect.print 7 KlikAanKlikUitAction.turn_on, PEffect.sleepHalfSecond] ∧
    invokeCount (process_task exTaskOn) = 0 ∧
    exTaskOn.params.tries = some 3 := by
  decide

/-- C4: the claim fails as stated.  From the stop test with two tasks
pending and a processor that raises on the first task, the `run` loop
dequeues the first task, the processing exception escapes the
`except queue.Empty` handler, and the loop is dead: after 10 steps the
second task is still queued and was never dequeued, instead of the loop
logging the exception and continuing. -/
theorem run_loop_dies_on_exception :
    (runSteps procBad 10 exRunStart).phase = Phase.crashed 0 ∧
    (runSteps procBad 10 exRunStart).queue = [exGoodTask] ∧
    (runSteps procBad 10 exRunStart).dequeued = [exBadTask] := by
  decide

theorem runSteps_crashed_absorbing {E : Type} (process : Task → Except E Unit)
    (e : E) (f : Bool) (q dq : List Task) :
    ∀ n, runSteps process n
        { phase := Phase.crashed e, stopSet := f, queue := q, dequeued := dq } =
      { phase := Phase.crashed e, stopSet := f, queue := q, dequeued := dq } := by
  intro n
  induction n with
  | zero => rfl
  | succ m ih =>
    show runSteps process m _ = _
    simpa [runStep] using ih

/-- C4 (amended): if processing a dequeued task raises an exception, the
`run` loop terminates: only `queue.Empty` is caught, so the exception
propagates out of `run` (nothing is logged by the loop), the worker thread
dies in the `crashed` state, and however many further steps elapse, the
remaining queued tasks are never dequeued or processed. -/
theorem uncaught_exception_terminates_run_loop {E : Type}
    (process : Task → Except E Unit) (t : Task) (e : E) (f : Bool)
    (q dq : List Task) (n : Nat) (h : process t = Except.error e) :
    runSteps process (n + 1)
        { phase := Phase.processing t, stopSet := f, queue := q, dequeued := dq } =
      { phase := Phase.crashed e, stopSet := f, queue := q, dequeued := dq } := by
  have h1 : runStep process
      { phase := Phase.processing t, stopSet := f, queue := q, dequeued := dq } =
      { phase := Phase.crashed e, stopSet := f, queue := q, dequeued := dq } := by
    simp [runStep, h]
  show runSteps process n _ = _
  rw [h1]
  exact runSteps_crashed_absorbing process e f q dq n

/-- C4 witness: a processor raising on the bad task leaves the worker dead
with the good task still queued after three steps. -/
theorem uncaught_exception_terminates_run_loop_witness :
    runSteps procBad 3
        { phase := Phase.processing exBadTask, stopSet := false,
          queue := [exGoodTask], dequeued := [exBadTask] } =
      { phase := Phase.crashed 0, stopSet := false, queue := [exGoodTask],
        dequeued := [exBadTask] } :=
  uncaught_exception_terminates_run_loop procBad exBadTask 0 false
    [exGoodTask] [exBadTask] 2 (by rfl)

/-- C5: once the stop event is set, the `run` loop reaches a terminal state
within three atomic steps — at most finishing its current bounded queue
wait and any in-flight task processing — it dequeues at most the one task
belonging to the wait already in progress, and if it is at the stop test
(no wait in progress) it dequeues nothing further. -/
theorem stop_event_terminates_loop {E : Type} (process : Task → Except E Unit)
    (s : RunState E) (h : s.stopSet = true) :
    Phase.isTerminal (runSteps process 3 s).phase = true ∧
    (runSteps process 3 s).dequeued.length ≤ s.dequeued.length + 1 ∧
    (s.phase = Phase.checkStop → (runSteps process 3 s).dequeued = s.dequeued) := by
  obtain ⟨ph, st, q, dq⟩ := s
  simp only at h
  subst h
  cases ph with
  | checkStop => simp [runSteps, runStep, Phase.isTerminal]
  | waiting =>
    cases q with
    | nil => simp [runSteps, runStep, Phase.isTerminal]
    | cons t rest =>
      cases hp : process t with
      | ok u => simp [runSteps, runStep, hp, Phase.isTerminal]
      | error e => simp [runSteps, runStep, hp, Phase.isTerminal]
  | processing t =>
    cases hp : process t with
    | ok u => simp [runSteps, runStep, hp, Phase.isTerminal]
    | error e => simp [runSteps, runStep, hp, Phase.isTerminal]
  | done => simp [runSteps, runStep, Phase.isTerminal]
  | crashed e => simp [runSteps, runStep, Phase.isTerminal]

/-- C5 witness: with the stop event set while waiting on a queue holding one
task, the loop is terminal after three steps, having dequeued at most that
one in-flight task. -/
theorem stop_event_terminates_loop_witness :
    Phase.isTerminal (runSteps pureOkTask 3 exStopState).phase = true ∧
    (runSteps pureOkTask 3 exStopState).dequeued.length ≤
      exStopState.dequeued.length + 1 ∧
    (exStopState.phase = Phase.checkStop →
      (runSteps pureOkTask 3 exStopState).dequeued = exStopState.dequeued) :=
  stop_event_terminates_loop pureOkTask exStopState (by rfl)

/-- C6: the claim fails as stated.  On a device whose worker thread is not
running, `turn_off` does return without enqueuing anything (the device,
including its absent worker reference, is unchanged), but the unavailability
is only written to the log: the method completes normally returning `None`
— the same caller-visible outcome as any other path — so no unavailable
indication is reported to the caller. -/
theorem turn_off_unavailability_not_reported :
    reportsToCaller (turn_off exDevDown) = false ∧
    (turn_off exDevDown).logs =
      [LogEvent.info "Function turn_off called", LogEvent.error workerNotRunningMsg] ∧
    (turn_off exDevDown).device = exDevDown := by
  exact ⟨rfl, rfl, rfl⟩

/-- C6 (amended): if `turn_on` or `turn_off` is called while the worker
thread is not running (attribute absent or thread dead), the call returns
`None` without enqueuing any task and leaves the device — state, brightness
and worker reference, hence any queue — unchanged; the unavailability is
logged via `_LOGGER.error` but not reported to the caller. -/
theorem turn_unavailable_logs_only (d : DeviceState) (kw : Option Nat)
    (h : workerNotRunning d = true) :
    turn_on d kw =
      { device := d,
        logs := [LogEvent.info "Function turn_on called",
          LogEvent.error workerNotRunningMsg],
        outcome := PyOutcome.returnsNone } ∧
    turn_off d =
      { device := d,
        logs := [LogEvent.info "Function turn_off called",
          LogEvent.error workerNotRunningMsg],
        outcome := PyOutcome.returnsNone } := by
  cases hw : d.worker_thread with
  | none => exact ⟨by simp [turn_on, hw], by simp [turn_off, hw]⟩
  | some wt =>
    have hal : wt.alive = false := by
      simpa [workerNotRunning, hw] using h
    exact ⟨by simp [turn_on, hw, hal], by simp [turn_off, hw, hal]⟩

/-- C6 witness: a freshly constructed device has no worker thread, and both
entity commands return `None`, log the error and change nothing. -/
theorem turn_unavailable_logs_only_witness :
    turn_on exDevDown none =
      { device := exDevDown,
        logs := [LogEvent.info "Function turn_on called",
          LogEvent.error workerNotRunningMsg],
        outcome := PyOutcome.returnsNone } ∧
    turn_off exDevDown =
      { device := exDevDown,
        logs := [LogEvent.info "Function turn_off called",
          LogEvent.error workerNotRunningMsg],
        outcome := PyOutcome.returnsNone } :=
  turn_unavailable_logs_only exDevDown none (by rfl)

/-- C7: `has_running_threads(device_id)` returns true exactly when some task
with that `device_id` is present in the pending queue.  The scan holds
`task_queue.mutex`, the same lock `Queue.put` and `Queue.get` acquire, which
the model reflects by treating the scan as one atomic read of the
instantaneous queue contents. -/
theorem has_running_threads_iff_queued (q : List Task) (d : Nat) :
    has_running_threads q d = true ↔ ∃ t, t ∈ q ∧ t.device_id = d := by
  simp [has_running_threads, List.any_eq_true]

/-- C9: the claim fails as stated.  A caller can supply brightness `0`
(nothing in the module restricts the value, and the Home Assistant
brightness scale starts at 0): then `math.ceil(0 / 17) = 0`, which is
outside the range `1..15` required for a Dim level. -/
theorem dim_level_zero_out_of_range :
    brightness_or_default (some 0) = 0 ∧
    dim_level (brightness_or_default (some 0)) = 0 ∧
    ¬(1 ≤ dim_level (brightness_or_default (some 0)) ∧
      dim_level (brightness_or_default (some 0)) ≤ 15) := by
  decide

/-- C9 (amended): for every brightness the caller can supply in `1..255` —
including the default 255 used when no brightness is given — the computed
level `math.ceil(brightness / 17)` lies in `1..15`; brightness `0` instead
yields level `0` (see the counterexample). -/
theorem dim_level_in_range (kw : Option Nat)
    (h1 : 1 ≤ brightness_or_default kw) (h2 : brightness_or_default kw ≤ 255) :
    1 ≤ dim_level (brightness_or_default kw) ∧
    dim_level (brightness_or_default kw) ≤ 15 := by
  unfold dim_level
  constructor
  · rw [Nat.one_le_div_iff (by norm_num)]
    omega
  · have h : brightness_or_default kw + 17 - 1 ≤ 271 := by omega
    calc (brightness_or_default kw + 17 - 1) / 17 ≤ 271 / 17 := Nat.div_le_div_right h
    _ = 15 := by norm_num

/-- C9 witness: the default brightness 255 yields level 15, inside `1..15`. -/
theorem dim_level_in_range_witness :
    1 ≤ dim_level (brightness_or_default none) ∧
    dim_level (brightness_or_default none) ≤ 15 :=
  dim_level_in_range none (by decide) (by decide)

/-- C10: no code path in the module ever assigns a `worker_thread` attribute
on `KlikAanKlikUitDevice` — `__init__` leaves it absent (`none` in the
model) and no other method writes it — so on every device as constructed,
every `turn_on` and every `turn_off` call takes the worker-not-running
branch and returns `None` early: the device object, in particular `_state`,
`_brightness` and the absent worker reference, is returned unchanged and no
task is ever enqueued through the entity interface. -/
theorem constructed_device_never_reaches_worker (deviceName : String)
    (deviceId : Nat) (isDimmer : Bool) (tries sleep : Nat) (kw : Option Nat) :
    turn_on (deviceInit deviceName deviceId isDimmer tries sleep) kw =
      { device := deviceInit deviceName deviceId isDimmer tries sleep,
        logs := [LogEvent.info "Function turn_on called",
          LogEvent.error workerNotRunningMsg],
        outcome := PyOutcome.returnsNone } ∧
    turn_off (deviceInit deviceName deviceId isDimmer tries sleep) =
      { device := deviceInit deviceName deviceId isDimmer tries sleep,
        logs := [LogEvent.info "Function turn_off called",
          LogEvent.error workerNotRunningMsg],
        outcome := PyOutcome.returnsNone } := by
  exact ⟨rfl, rfl⟩

end ICS2000
